import Mathlib

/-!
Verification of the job scheduling and execution subsystem of the
clearinghouse repository: the atomic job-claiming queue
(`JobExecutor` / `JobWorker`), the handler-registry dispatch model and the
periodic schedule / staleness checking control loop.

The Python sources embedded here are
`api/src/services/job_executor.py`, `api/src/services/job_worker.py` and
`api/src/services/job_handlers.py`.  Machine time is modelled with `Int`
(seconds); Python dict access `d.get(k)` is modelled with `Option`;
Python exceptions are modelled with `Except String`, the `String` being
the result of `str(e)`.
-/

namespace Clearinghouse

/-! ## Job Store model

The `claim_jobs` stored procedure lives in the database migrations, which
are not part of the application sources; only its caller
(`SupabaseJobExecutor.claim_jobs`) is.  It is therefore modelled from the
spec below.
-/

/-- Status of a job row in the Job Store. -/
inductive JobStatus where
  | queued
  | processing
  | completed
  | failed
  | cancelled
deriving DecidableEq, Repr

/-- A job row as held in the Job Store. -/
structure StoreJob where
  id : Nat
  job_type : String
  priority : Int
  created_at : Int
  status : JobStatus
  worker_id : Option String
  started_at : Option Int
deriving DecidableEq, Repr

/-- The ids of the rows of a store (or of a claimed batch), in row order. -/
def idsOf (s : List StoreJob) : List Nat :=
  s.map (fun j => j.id)

/-- A row is eligible for claiming when its status is `queued` and its
job type is in the requested set. -/
def eligibleJob (jobTypes : List String) (j : StoreJob) : Bool :=
  (j.status == JobStatus.queued) && jobTypes.contains j.job_type

/-- Claim order: priority descending, ties broken by creation time
ascending (oldest first). -/
def claimOrder (a b : StoreJob) : Prop :=
  b.priority < a.priority ∨ (a.priority = b.priority ∧ a.created_at ≤ b.created_at)

instance : DecidableRel claimOrder := fun a b => by
  unfold claimOrder
  infer_instance

/-- The rows selected by one claim call: eligible rows, ordered by
`claimOrder`, truncated to the limit. -/
def claimChosenRows (s : List StoreJob) (jobTypes : List String) (lim : Nat) :
    List StoreJob :=
  (List.insertionSort claimOrder (s.filter (eligibleJob jobTypes))).take lim

/-- The ids of the rows selected by one claim call. -/
def claimChosen (s : List StoreJob) (jobTypes : List String) (lim : Nat) :
    List Nat :=
  idsOf (claimChosenRows s jobTypes lim)

/-- The per-row update performed by a claim: a selected row transitions to
`processing` and is stamped with the claimant's worker id and start time;
every other row is left unchanged. -/
def claimMark (workerId : String) (now : Int) (chosen : List Nat)
    (j : StoreJob) : StoreJob :=
  if j.id ∈ chosen then
    { j with
      status := JobStatus.processing
      worker_id := some workerId
      started_at := some now }
  else j

/-- Modelled from the spec: the Job Store's `claim_jobs` stored procedure
(absent from the application sources; only its RPC caller is present).
Atomically reserves up to `lim` jobs whose `job_type` is in the given set
and whose status is `queued`, ordered by priority descending then creation
time ascending, transitioning them to `processing` and stamping
`worker_id` and `started_at` as part of the same atomic operation, and
returns the claimed rows.  Returns the updated store and the claimed
batch. -/
def Store.claim_jobs (s : List StoreJob) (workerId : String)
    (jobTypes : List String) (lim : Nat) (now : Int) :
    List StoreJob × List StoreJob :=
  ((s.map (claimMark workerId now (claimChosen s jobTypes lim))),
   (claimChosenRows s jobTypes lim).map
     (claimMark workerId now (claimChosen s jobTypes lim)))

/-- The arguments of one `claim_jobs` call. -/
structure ClaimCall where
  workerId : String
  jobTypes : List String
  lim : Nat
  now : Int

/-- A sequence of `claim_jobs` calls run against the store.  Because each
call is a single atomic Store operation (`SELECT ... FOR UPDATE SKIP
LOCKED` inside one transaction), any concurrent execution of claim calls
is equivalent to running them in some serial order, which this function
captures.  Returns the final store and the list of claimed batches, one
per call, in execution order. -/
def Store.runClaims (s : List StoreJob) :
    List ClaimCall → List StoreJob × List (List StoreJob)
  | [] => (s, [])
  | c :: cs =>
    ((Store.runClaims
        (Store.claim_jobs s c.workerId c.jobTypes c.lim c.now).1 cs).1,
     (Store.claim_jobs s c.workerId c.jobTypes c.lim c.now).2 ::
       (Store.runClaims
         (Store.claim_jobs s c.workerId c.jobTypes c.lim c.now).1 cs).2)

/-- The status of the (first) row with the given id, if any. -/
def statusOf (s : List StoreJob) (jid : Nat) : Option JobStatus :=
  (s.find? (fun j => j.id == jid)).map (fun j => j.status)

lemma claimMark_id (workerId : String) (now : Int) (chosen : List Nat)
    (j : StoreJob) : (claimMark workerId now chosen j).id = j.id := by
  unfold claimMark
  split <;> rfl

lemma claimMark_status_of_mem {chosen : List Nat} {j : StoreJob}
    (h : j.id ∈ chosen) (workerId : String) (now : Int) :
    (claimMark workerId now chosen j).status = JobStatus.processing := by
  unfold claimMark
  simp [h]

lemma claimMark_of_not_mem {chosen : List Nat} {j : StoreJob}
    (h : j.id ∉ chosen) (workerId : String) (now : Int) :
    claimMark workerId now chosen j = j := by
  unfold claimMark
  simp [h]

lemma idsOf_map_claimMark (workerId : String) (now : Int) (chosen : List Nat)
    (s : List StoreJob) :
    idsOf (s.map (claimMark workerId now chosen)) = idsOf s := by
  unfold idsOf
  rw [List.map_map]
  exact List.map_congr_left (fun j _ => claimMark_id workerId now chosen j)

lemma idsOf_claim_snd (s : List StoreJob) (workerId : String)
    (jobTypes : List String) (lim : Nat) (now : Int) :
    idsOf (Store.claim_jobs s workerId jobTypes lim now).2 =
      claimChosen s jobTypes lim := by
  unfold Store.claim_jobs claimChosen
  exact idsOf_map_claimMark workerId now _ _

/-- Every id chosen by a claim call belongs to a row of the store that is
`queued` at the time of the call. -/
lemma mem_claimChosen (s : List StoreJob) (jobTypes : List String)
    (lim : Nat) {jid : Nat} (h : jid ∈ claimChosen s jobTypes lim) :
    ∃ j ∈ s, j.id = jid ∧ j.status = JobStatus.queued := by
  unfold claimChosen idsOf at h
  obtain ⟨j, hj, rfl⟩ := List.mem_map.mp h
  unfold claimChosenRows at hj
  have hsort := List.take_subset lim _ hj
  have hfil : j ∈ s.filter (eligibleJob jobTypes) :=
    (List.mem_insertionSort claimOrder).mp hsort
  obtain ⟨hmem, helig⟩ := List.mem_filter.mp hfil
  refine ⟨j, hmem, rfl, ?_⟩
  unfold eligibleJob at helig
  simp only [Bool.and_eq_true, beq_iff_eq] at helig
  exact helig.1

/-- With unique ids, `find?` on an id locates the member row itself. -/
lemma find?_eq_of_mem_of_nodup {s : List StoreJob} {j : StoreJob}
    (hn : (idsOf s).Nodup) (hj : j ∈ s) :
    s.find? (fun x => x.id == j.id) = some j := by
  induction s with
  | nil => cases hj
  | cons k tl ih =>
    unfold idsOf at hn
    simp only [List.map_cons, List.nodup_cons] at hn
    rcases List.mem_cons.mp hj with rfl | hmem
    · exact List.find?_cons_of_pos tl (by simp)
    · have hne : (k.id == j.id) = false := by
        rw [beq_eq_false_iff_ne]
        intro heq
        exact hn.1 (heq ▸ List.mem_map_of_mem (fun x => x.id) hmem)
      rw [List.find?_cons_of_neg tl (by simp [hne])]
      exact ih hn.2 hmem

lemma statusOf_eq_of_mem_of_nodup {s : List StoreJob} {j : StoreJob}
    (hn : (idsOf s).Nodup) (hj : j ∈ s) :
    statusOf s j.id = some j.status := by
  unfold statusOf
  rw [find?_eq_of_mem_of_nodup hn hj]
  rfl

/-- `find?` by id commutes with an id-preserving row update. -/
lemma find?_map_claimMark (workerId : String) (now : Int) (chosen : List Nat)
    (s : List StoreJob) (jid : Nat) :
    (s.map (claimMark workerId now chosen)).find? (fun x => x.id == jid) =
      (s.find? (fun x => x.id == jid)).map (claimMark workerId now chosen) := by
  induction s with
  | nil => rfl
  | cons k tl ih =>
    rw [List.map_cons]
    cases hk : (k.id == jid) with
    | true =>
      rw [List.find?_cons_of_pos _ (by simp [claimMark_id, hk]),
        List.find?_cons_of_pos tl hk]
      rfl
    | false =>
      rw [List.find?_cons_of_neg _ (by simp [claimMark_id, hk]),
        List.find?_cons_of_neg tl (by simp [hk])]
      exact ih

/-- After a claim call, every chosen row is `processing`. -/
lemma statusOf_claim_of_mem {s : List StoreJob} (hn : (idsOf s).Nodup)
    (workerId : String) (jobTypes : List String) (lim : Nat) (now : Int)
    {jid : Nat} (h : jid ∈ claimChosen s jobTypes lim) :
    statusOf (Store.claim_jobs s workerId jobTypes lim now).1 jid =
      some JobStatus.processing := by
  obtain ⟨j, hj, rfl, _⟩ := mem_claimChosen s jobTypes lim h
  unfold Store.claim_jobs statusOf
  rw [find?_map_claimMark, find?_eq_of_mem_of_nodup hn hj]
  simp [claimMark_status_of_mem h]

/-- A claim call never makes a row `queued`: a row that is not `queued`
before the call is not `queued` after it. -/
lemma statusOf_claim_not_queued {s : List StoreJob} (workerId : String)
    (jobTypes : List String) (lim : Nat) (now : Int) {jid : Nat}
    (h : statusOf s jid ≠ some JobStatus.queued) :
    statusOf (Store.claim_jobs s workerId jobTypes lim now).1 jid ≠
      some JobStatus.queued := by
  unfold Store.claim_jobs statusOf at *
  rw [find?_map_claimMark]
  cases hf : s.find? (fun x => x.id == jid) with
  | none => simp
  | some j =>
    rw [hf] at h
    intro hcontra
    have hstat : (claimMark workerId now (claimChosen s jobTypes lim) j).status =
        JobStatus.queued := by
      simpa using hcontra
    unfold claimMark at hstat
    split at hstat
    · cases hstat
    · exact h (by simp [hstat])

lemma idsOf_claim_fst (s : List StoreJob) (workerId : String)
    (jobTypes : List String) (lim : Nat) (now : Int) :
    idsOf (Store.claim_jobs s workerId jobTypes lim now).1 = idsOf s := by
  unfold Store.claim_jobs
  exact idsOf_map_claimMark workerId now _ s

/-- Invariant of a run of claim calls: an id that is not `queued` is never
subsequently claimed, and stays not `queued`. -/
lemma runClaims_not_queued (calls : List ClaimCall) :
    ∀ (s : List StoreJob) (jid : Nat), (idsOf s).Nodup →
      statusOf s jid ≠ some JobStatus.queued →
      (∀ r ∈ (Store.runClaims s calls).2, jid ∉ idsOf r) ∧
        statusOf (Store.runClaims s calls).1 jid ≠ some JobStatus.queued := by
  induction calls with
  | nil =>
    intro s jid _ hq
    exact ⟨by intro r hr; simp [Store.runClaims] at hr, by simpa [Store.runClaims]⟩
  | cons c cs ih =>
    intro s jid hn hq
    have hnotchosen : jid ∉ claimChosen s c.jobTypes c.lim := by
      intro hmem
      obtain ⟨j, hj, rfl, hqueued⟩ := mem_claimChosen s c.jobTypes c.lim hmem
      exact hq (by rw [statusOf_eq_of_mem_of_nodup hn hj, hqueued])
    have hn1 : (idsOf (Store.claim_jobs s c.workerId c.jobTypes c.lim c.now).1).Nodup := by
      rw [idsOf_claim_fst]; exact hn
    have hq1 := statusOf_claim_not_queued c.workerId c.jobTypes c.lim c.now hq
    obtain ⟨hrest, hfinal⟩ :=
      ih (Store.claim_jobs s c.workerId c.jobTypes c.lim c.now).1 jid hn1 hq1
    refine ⟨?_, by simpa [Store.runClaims] using hfinal⟩
    intro r hr
    simp only [Store.runClaims, List.mem_cons] at hr
    rcases hr with rfl | hr
    · rw [idsOf_claim_snd]
      exact hnotchosen
    · exact hrest r hr

/-- Claim C1: for every set of concurrent claim_jobs calls (from any number
of worker processes) against the same Job Store, each job is returned by at
most one call — the claimed sets are pairwise disjoint, so no two concurrent
callers ever receive the same job.  Because each claim is one atomic Store
operation, every concurrent execution is equivalent to some serial order of
the calls, quantified here as an arbitrary call list. -/
theorem c1_claim_jobs_mutual_exclusion (s : List StoreJob)
    (calls : List ClaimCall) (hn : (idsOf s).Nodup) :
    ((Store.runClaims s calls).2).Pairwise
      (fun r1 r2 => ∀ j1 ∈ r1, ∀ j2 ∈ r2, j1.id ≠ j2.id) := by
  induction calls generalizing s with
  | nil => simp [Store.runClaims]
  | cons c cs ih =>
    have hn1 : (idsOf (Store.claim_jobs s c.workerId c.jobTypes c.lim c.now).1).Nodup := by
      rw [idsOf_claim_fst]
      exact hn
    simp only [Store.runClaims]
    refine List.Pairwise.cons ?_ (ih _ hn1)
    intro r hr j1 hj1 j2 hj2 heq
    have hid1 : j1.id ∈ claimChosen s c.jobTypes c.lim := by
      rw [← idsOf_claim_snd s c.workerId c.jobTypes c.lim c.now]
      exact List.mem_map_of_mem _ hj1
    have hproc := statusOf_claim_of_mem hn c.workerId c.jobTypes c.lim c.now hid1
    have hnq : statusOf (Store.claim_jobs s c.workerId c.jobTypes c.lim c.now).1
        j1.id ≠ some JobStatus.queued := by
      rw [hproc]
      simp
    obtain ⟨hnotin, _⟩ := runClaims_not_queued cs _ j1.id hn1 hnq
    have hmem : j1.id ∈ idsOf r := by
      unfold idsOf
      rw [heq]
      exact List.mem_map_of_mem _ hj2
    exact hnotin r hr hmem

/-- A concrete store with two queued jobs of distinct ids. -/
def demoStore : List StoreJob :=
  [ { id := 1, job_type := "scheduled_work", priority := 5, created_at := 10,
      status := JobStatus.queued, worker_id := none, started_at := none },
    { id := 2, job_type := "stale_refresh", priority := 3, created_at := 11,
      status := JobStatus.queued, worker_id := none, started_at := none } ]

/-- Two claim calls from two distinct workers against `demoStore`. -/
def demoCalls : List ClaimCall :=
  [ { workerId := "worker-a", jobTypes := ["scheduled_work", "stale_refresh"],
      lim := 1, now := 100 },
    { workerId := "worker-b", jobTypes := ["scheduled_work", "stale_refresh"],
      lim := 5, now := 101 } ]

/-- Witness for C1 at a concrete store and call sequence. -/
theorem c1_claim_jobs_mutual_exclusion_witness :
    ((Store.runClaims demoStore demoCalls).2).Pairwise
      (fun r1 r2 => ∀ j1 ∈ r1, ∀ j2 ∈ r2, j1.id ≠ j2.id) :=
  c1_claim_jobs_mutual_exclusion demoStore demoCalls (by decide)

/-! ## SupabaseJobExecutor (job_executor.py)

Each executor method wraps one RPC call to the Store in a
`try: ... except Exception: ...` block.  The behaviour of the Store is a
parameter (an oracle returning either `.ok data` — the response, whose
`.data` field may be `None`, modelled with `Option` — or `.error e` — a
raised exception with message `e`). -/

/-- Embedding of `SupabaseJobExecutor.claim_jobs`: calls the `claim_jobs`
RPC with the given job types and limit; on success returns
`result.data or []`; on any raised exception logs and returns `[]`. -/
def SupabaseJobExecutor.claim_jobs {J : Type}
    (rpc : List String → Int → Except String (Option (List J)))
    (job_types : List String) (lim : Int) : List J :=
  match rpc job_types lim with
  | Except.error _ => []
  | Except.ok d => d.getD []

/-- Embedding of `SupabaseJobExecutor.check_schedules`: calls the
`check_and_queue_due_schedules` RPC (no arguments); on success returns
`result.data or []`; on any raised exception logs and returns `[]`. -/
def SupabaseJobExecutor.check_schedules {J : Type}
    (rpc : Except String (Option (List J))) : List J :=
  match rpc with
  | Except.error _ => []
  | Except.ok d => d.getD []

/-- Embedding of `SupabaseJobExecutor.check_stale_anchors`: calls the
`check_and_queue_stale_anchors` RPC (no arguments); on success returns
`result.data or []`; on any raised exception logs and returns `[]`. -/
def SupabaseJobExecutor.check_stale_anchors {J : Type}
    (rpc : Except String (Option (List J))) : List J :=
  match rpc with
  | Except.error _ => []
  | Except.ok d => d.getD []

/-- Claim C2: for every input (any job_types list and limit) and every
behaviour of the underlying store, `claim_jobs` never raises (it is a total
function here): if the store call fails, it returns the empty list; and
`check_schedules` / `check_stale_anchors` likewise resolve any store
exception to an empty list instead of propagating it. -/
theorem c2_store_errors_absorbed {J K L : Type}
    (rpc : List String → Int → Except String (Option (List J)))
    (job_types : List String) (lim : Int)
    (schedRpc : Except String (Option (List K)))
    (staleRpc : Except String (Option (List L))) :
    ((∃ e, rpc job_types lim = Except.error e) →
      SupabaseJobExecutor.claim_jobs rpc job_types lim = []) ∧
    ((∃ e, schedRpc = Except.error e) →
      SupabaseJobExecutor.check_schedules schedRpc = []) ∧
    ((∃ e, staleRpc = Except.error e) →
      SupabaseJobExecutor.check_stale_anchors staleRpc = []) := by
  refine ⟨?_, ?_, ?_⟩
  · rintro ⟨e, he⟩
    unfold SupabaseJobExecutor.claim_jobs
    rw [he]
  · rintro ⟨e, he⟩
    unfold SupabaseJobExecutor.check_schedules
    rw [he]
  · rintro ⟨e, he⟩
    unfold SupabaseJobExecutor.check_stale_anchors
    rw [he]

/-- Witness for C2: a store whose every call raises, at concrete inputs. -/
theorem c2_store_errors_absorbed_witness :
    SupabaseJobExecutor.claim_jobs
        (fun _ _ => (Except.error "connection reset" : Except String (Option (List Nat))))
        ["scheduled_work", "stale_refresh"] 5 = [] ∧
    SupabaseJobExecutor.check_schedules
        (Except.error "connection reset" : Except String (Option (List Nat))) = [] ∧
    SupabaseJobExecutor.check_stale_anchors
        (Except.error "connection reset" : Except String (Option (List Nat))) = [] := by
  obtain ⟨h1, h2, h3⟩ := c2_store_errors_absorbed
    (fun _ _ => (Except.error "connection reset" : Except String (Option (List Nat))))
    ["scheduled_work", "stale_refresh"] 5
    (Except.error "connection reset" : Except String (Option (List Nat)))
    (Except.error "connection reset" : Except String (Option (List Nat)))
  exact ⟨h1 ⟨"connection reset", rfl⟩, h2 ⟨"connection reset", rfl⟩,
    h3 ⟨"connection reset", rfl⟩⟩

/-- Embedding of Python string slicing `s[:n]`: the first `n` characters
(code points) of `s`. -/
def sliceTo (s : String) (n : Nat) : String :=
  String.mk (s.data.take n)

/-- The keyword arguments passed to the `fail_job` RPC. -/
structure FailJobRpcArgs where
  p_job_id : Option String
  p_error : String
deriving DecidableEq, Repr

/-- Embedding of `SupabaseJobExecutor.fail_job`: calls the `fail_job` RPC
with `p_job_id = job_id` and `p_error = error[:1000]` (truncating long
errors); on success returns the response data, on a raised exception logs
and returns `false`.  The second component records the RPC arguments the
store received. -/
def SupabaseJobExecutor.fail_job
    (rpc : FailJobRpcArgs → Except String Bool)
    (job_id : Option String) (error : String) : Bool × FailJobRpcArgs :=
  (match rpc { p_job_id := job_id, p_error := sliceTo error 1000 } with
   | Except.error _ => false
   | Except.ok b => b,
   { p_job_id := job_id, p_error := sliceTo error 1000 })

/-- Claim C5: for every job id and every error string, `fail_job` passes to
the store an error message of length at most 1000 characters: the stored
message is the first 1000 characters of the given error, and strings of
length at most 1000 are passed unchanged. -/
theorem c5_fail_job_truncates (rpc : FailJobRpcArgs → Except String Bool)
    (job_id : Option String) (error : String) :
    (SupabaseJobExecutor.fail_job rpc job_id error).2.p_job_id = job_id ∧
    (SupabaseJobExecutor.fail_job rpc job_id error).2.p_error.data =
      error.data.take 1000 ∧
    (SupabaseJobExecutor.fail_job rpc job_id error).2.p_error.length ≤ 1000 ∧
    (error.length ≤ 1000 →
      (SupabaseJobExecutor.fail_job rpc job_id error).2.p_error = error) := by
  refine ⟨rfl, rfl, ?_, ?_⟩
  · show (error.data.take 1000).length ≤ 1000
    rw [List.length_take]
    exact min_le_left _ _
  · intro hlen
    show String.mk (error.data.take 1000) = error
    rw [List.take_of_length_le hlen]

/-- Witness for C5 at a concrete store, job id and error message. -/
theorem c5_fail_job_truncates_witness :
    (SupabaseJobExecutor.fail_job (fun _ => Except.ok true)
        (some "job-1") "boom").2.p_error = "boom" :=
  (c5_fail_job_truncates (fun _ => Except.ok true) (some "job-1") "boom").2.2.2
    (by decide)

/-! ## JobHandlerRegistry (job_handlers.py) and per-job processing
(job_worker.py)

A job row is a Python dict; `job.get('id')`, `job.get('job_type')` and
`job.get('payload', {})` are modelled with `Option` fields.  Payloads and
handler results are opaque to the scheduling core, so they are type
parameters `π` and `ρ`; a handler is a black-box `π → Except String ρ`
(`.error` carrying `str(e)` of the raised exception).  The registry's
`_handlers` dict is an association list; `emptyDict : π` embeds the `{}`
default of `job.get('payload', {})`. -/

/-- A claimed job dict as seen by the worker and the registry. -/
structure Job (π : Type) where
  id : Option String
  job_type : Option String
  payload : Option π

/-- Python string interpolation of an optional string: `None` prints as
`"None"`, a string prints as itself. -/
def pyFormatOptStr : Option String → String
  | none => "None"
  | some s => s

/-- Embedding of `JobHandlerRegistry.handle`: looks up `job.get('job_type')`
in the handlers dict (a missing or `None` job type finds no handler, since
the dict is keyed by strings); raises
`ValueError("No handler registered for job type: ...")` when absent;
otherwise runs the handler on `job.get('payload', {})`, re-raising any
handler exception. -/
def JobHandlerRegistry.handle {π ρ : Type} (emptyDict : π)
    (handlers : List (String × (π → Except String ρ))) (job : Job π) :
    Except String ρ :=
  match (match job.job_type with
         | none => none
         | some t => handlers.lookup t) with
  | none =>
    Except.error ("No handler registered for job type: " ++
      pyFormatOptStr job.job_type)
  | some h => h (job.payload.getD emptyDict)

/-- An executor call issued by the worker for one processed job. -/
inductive ExecCall (ρ : Type) where
  | complete (job_id : Option String) (result : ρ)
  | fail (job_id : Option String) (error : String)
deriving DecidableEq, Repr

/-- Embedding of `JobWorker._process_single_job`: routes the job to the
registry; on a normal result calls `complete_job(job_id, result)`; on any
exception calls `fail_job(job_id, str(e))`.  No exception escapes. -/
def JobWorker.processSingleJob {π ρ : Type} (emptyDict : π)
    (handlers : List (String × (π → Except String ρ))) (job : Job π) :
    ExecCall ρ :=
  match JobHandlerRegistry.handle emptyDict handlers job with
  | Except.ok result => ExecCall.complete job.id result
  | Except.error e => ExecCall.fail job.id e

/-- Embedding of the per-job loop of `JobWorker._process_jobs`: each claimed
job of the batch is processed by `_process_single_job`, in order. -/
def JobWorker.processJobsBatch {π ρ : Type} (emptyDict : π)
    (handlers : List (String × (π → Except String ρ))) (jobs : List (Job π)) :
    List (ExecCall ρ) :=
  jobs.map (JobWorker.processSingleJob emptyDict handlers)

/-- Claim C4: every claimed batch is processed with a per-job exception
boundary: the batch produces exactly one executor call per job
(pointwise, so one job's failure never aborts the batch or the loop);
a job whose handler raises yields `fail_job` with the stringified error,
and a job whose handler returns yields `complete_job` with exactly that
result. -/
theorem c4_per_job_boundary {π ρ : Type} (emptyDict : π)
    (handlers : List (String × (π → Except String ρ))) (jobs : List (Job π)) :
    (JobWorker.processJobsBatch emptyDict handlers jobs).length = jobs.length ∧
    (∀ i : Nat, (JobWorker.processJobsBatch emptyDict handlers jobs)[i]? =
      (jobs[i]?).map (JobWorker.processSingleJob emptyDict handlers)) ∧
    (∀ (job : Job π) (r : ρ),
      JobHandlerRegistry.handle emptyDict handlers job = Except.ok r →
      JobWorker.processSingleJob emptyDict handlers job =
        ExecCall.complete job.id r) ∧
    (∀ (job : Job π) (e : String),
      JobHandlerRegistry.handle emptyDict handlers job = Except.error e →
      JobWorker.processSingleJob emptyDict handlers job =
        ExecCall.fail job.id e) := by
  refine ⟨List.length_map _ _, ?_, ?_, ?_⟩
  · intro i
    exact List.getElem?_map _ jobs i
  · intro job r h
    unfold JobWorker.processSingleJob
    rw [h]
  · intro job e h
    unfold JobWorker.processSingleJob
    rw [h]

/-- Handlers used by witnesses: `"ok"` echoes its payload, `"boom"`
raises. -/
def demoHandlers : List (String × (Nat → Except String Nat)) :=
  [("ok", fun p => Except.ok p), ("boom", fun _ => Except.error "boom")]

/-- A three-job batch whose middle job's handler raises. -/
def demoBatch : List (Job Nat) :=
  [ { id := some "j1", job_type := some "ok", payload := some 7 },
    { id := some "j2", job_type := some "boom", payload := some 8 },
    { id := some "j3", job_type := some "ok", payload := some 9 } ]

/-- Witness for C4: in a batch of three jobs whose middle handler raises,
jobs 1 and 3 still complete and job 2 fails with the error. -/
theorem c4_per_job_boundary_witness :
    (JobWorker.processJobsBatch 0 demoHandlers demoBatch).length = 3 ∧
    JobWorker.processSingleJob 0 demoHandlers
        { id := some "j1", job_type := some "ok", payload := some 7 } =
      ExecCall.complete (some "j1") 7 ∧
    JobWorker.processSingleJob 0 demoHandlers
        { id := some "j2", job_type := some "boom", payload := some 8 } =
      ExecCall.fail (some "j2") "boom" ∧
    JobWorker.processSingleJob 0 demoHandlers
        { id := some "j3", job_type := some "ok", payload := some 9 } =
      ExecCall.complete (some "j3") 9 :=
  ⟨(c4_per_job_boundary 0 demoHandlers demoBatch).1,
   (c4_per_job_boundary 0 demoHandlers demoBatch).2.2.1
     { id := some "j1", job_type := some "ok", payload := some 7 } 7 rfl,
   (c4_per_job_boundary 0 demoHandlers demoBatch).2.2.2
     { id := some "j2", job_type := some "boom", payload := some 8 } "boom" rfl,
   (c4_per_job_boundary 0 demoHandlers demoBatch).2.2.1
     { id := some "j3", job_type := some "ok", payload := some 9 } 9 rfl⟩

/-- Claim C3: for every job whose job_type has no registered handler,
`JobHandlerRegistry.handle` raises an error whose message mentions the
unknown job type; the Worker's per-job step turns it into a `fail_job`
call with that message; and the batch step stays total — every job of a
batch containing such a job is still mapped to an executor call. -/
theorem c3_unknown_job_type {π ρ : Type} (emptyDict : π)
    (handlers : List (String × (π → Except String ρ))) (job : Job π)
    (t : String) (hty : job.job_type = some t)
    (hmiss : handlers.lookup t = none) :
    ∃ msg, JobHandlerRegistry.handle emptyDict handlers job = Except.error msg ∧
      (∃ a b, msg = a ++ t ++ b) ∧
      JobWorker.processSingleJob emptyDict handlers job =
        ExecCall.fail job.id msg ∧
      ∀ left right : List (Job π),
        (JobWorker.processJobsBatch emptyDict handlers
            (left ++ job :: right)).length =
          left.length + 1 + right.length := by
  refine ⟨"No handler registered for job type: " ++ t, ?_, ?_, ?_, ?_⟩
  · simp [JobHandlerRegistry.handle, hty, hmiss, pyFormatOptStr]
  · exact ⟨"No handler registered for job type: ", "", by simp⟩
  · simp [JobWorker.processSingleJob, JobHandlerRegistry.handle, hty, hmiss,
      pyFormatOptStr]
  · intro left right
    unfold JobWorker.processJobsBatch
    rw [List.length_map, List.length_append, List.length_cons]
    omega

/-- A job of a type for which no handler is registered. -/
def mysteryJob : Job Nat :=
  { id := some "j9", job_type := some "mystery", payload := none }

/-- The empty handler registry over `Nat` payloads and results. -/
def emptyRegistry : List (String × (Nat → Except String Nat)) := []

/-- Witness for C3: an empty registry and a job of type `"mystery"`. -/
theorem c3_unknown_job_type_witness :
    ∃ msg, JobHandlerRegistry.handle 0 emptyRegistry mysteryJob =
      Except.error msg ∧
      (∃ a b, msg = a ++ "mystery" ++ b) ∧
      JobWorker.processSingleJob 0 emptyRegistry mysteryJob =
        ExecCall.fail mysteryJob.id msg ∧
      ∀ left right : List (Job Nat),
        (JobWorker.processJobsBatch 0 emptyRegistry
            (left ++ mysteryJob :: right)).length =
          left.length + 1 + right.length :=
  c3_unknown_job_type 0 emptyRegistry mysteryJob "mystery" rfl rfl

/-- Claim C10 (implicit): a job dict with no job_type key (or
`job_type = None`) is handled exactly like a job with an unknown type:
`handle` raises a `ValueError` mentioning the `None` type before ever
reading the payload (the error is the same for every payload), the
Worker's per-job boundary converts it into a `fail_job` call, and the
batch step stays total, so malformed job rows can never crash the
worker. -/
theorem c10_missing_job_type {π ρ : Type} (emptyDict : π)
    (handlers : List (String × (π → Except String ρ))) (job : Job π)
    (hty : job.job_type = none) :
    JobHandlerRegistry.handle emptyDict handlers job =
      Except.error "No handler registered for job type: None" ∧
    (∃ a b, ("No handler registered for job type: None" : String) =
      a ++ "None" ++ b) ∧
    (∀ p : Option π,
      JobHandlerRegistry.handle emptyDict handlers { job with payload := p } =
        Except.error "No handler registered for job type: None") ∧
    JobWorker.processSingleJob emptyDict handlers job =
      ExecCall.fail job.id "No handler registered for job type: None" ∧
    (∀ left right : List (Job π),
      (JobWorker.processJobsBatch emptyDict handlers
          (left ++ job :: right)).length =
        left.length + 1 + right.length) := by
  refine ⟨?_, ⟨"No handler registered for job type: ", "", by simp⟩, ?_, ?_, ?_⟩
  · unfold JobHandlerRegistry.handle
    rw [hty]
    rfl
  · intro p
    unfold JobHandlerRegistry.handle
    rw [show (Job.mk job.id job.job_type p).job_type = none from hty]
    rfl
  · unfold JobWorker.processSingleJob JobHandlerRegistry.handle
    rw [hty]
    rfl
  · intro left right
    unfold JobWorker.processJobsBatch
    rw [List.length_map, List.length_append, List.length_cons]
    omega

/-- Witness for C10: a malformed job row with no job_type, in an otherwise
populated registry. -/
theorem c10_missing_job_type_witness :
    JobHandlerRegistry.handle 0 demoHandlers
        { id := some "j0", job_type := none, payload := some 3 } =
      Except.error "No handler registered for job type: None" ∧
    JobWorker.processSingleJob 0 demoHandlers
        { id := some "j0", job_type := none, payload := some 3 } =
      ExecCall.fail (some "j0") "No handler registered for job type: None" :=
  ⟨(c10_missing_job_type 0 demoHandlers
      { id := some "j0", job_type := none, payload := some 3 } rfl).1,
   (c10_missing_job_type 0 demoHandlers
      { id := some "j0", job_type := none, payload := some 3 } rfl).2.2.2.1⟩

/-! ## JobWorker state and control loop (job_worker.py)

Worker state as held by a `JobWorker` instance.  `tasks` counts the calls
to `asyncio.create_task` made by this worker (the code stores the handle in
`self._task`); machine time and the interval configuration are `Int`
seconds (`time.time()` values and `int(os.getenv(...))`). -/

/-- In-memory state of a `JobWorker` instance. -/
structure WorkerState where
  workerId : String
  running : Bool
  tasks : Nat
  jobPollInterval : Int
  scheduleCheckInterval : Int
  staleCheckInterval : Int
  jobBatchSize : Int
  lastScheduleCheck : Int
  lastStaleCheck : Int
  jobTypes : List String
deriving DecidableEq, Repr

/-- The job types registered at module load, in registration order
(`get_all_job_types`). -/
def get_all_job_types : List String :=
  ["scheduled_work", "stale_refresh", "email_notification", "llm_batch"]

/-- Embedding of `JobWorker.__init__`: not running, no loop task,
last-check trackers at the sentinel 0, job types from the registry, and
interval configuration from the environment (passed in here). -/
def JobWorker.init (workerId : String)
    (jobPollInterval scheduleCheckInterval staleCheckInterval jobBatchSize : Int) :
    WorkerState :=
  { workerId := workerId
    running := false
    tasks := 0
    jobPollInterval := jobPollInterval
    scheduleCheckInterval := scheduleCheckInterval
    staleCheckInterval := staleCheckInterval
    jobBatchSize := jobBatchSize
    lastScheduleCheck := 0
    lastStaleCheck := 0
    jobTypes := get_all_job_types }

/-- Embedding of `JobWorker.start`: a no-op (with a logged warning) when
already running; otherwise marks `running = true` and spawns exactly one
background loop task. -/
def JobWorker.start (w : WorkerState) : WorkerState :=
  if w.running then w
  else { w with running := true, tasks := w.tasks + 1 }

/-- Embedding of `JobWorker.stop`: a no-op when not running; otherwise
marks `running = false` and cancels the loop task. -/
def JobWorker.stop (w : WorkerState) : WorkerState :=
  if w.running then { w with running := false } else w

/-- Claim C6: `start()` is idempotent: starting an already-running worker
is a no-op that spawns no task and leaves the state unchanged, starting a
stopped worker sets `running = true` and creates exactly one loop task,
and `start(); start()` leaves the same state as a single `start()`. -/
theorem c6_start_idempotent (w : WorkerState) :
    JobWorker.start (JobWorker.start w) = JobWorker.start w ∧
    (w.running = true → JobWorker.start w = w) ∧
    (w.running = false →
      JobWorker.start w = { w with running := true, tasks := w.tasks + 1 }) := by
  unfold JobWorker.start
  refine ⟨?_, ?_, ?_⟩
  · cases h : w.running <;> simp [h]
  · intro h
    simp [h]
  · intro h
    simp [h]

/-- A concrete stopped worker with default configuration. -/
def demoWorker : WorkerState :=
  JobWorker.init "worker-1" 30 900 3600 5

/-- Witness for C6 at a concrete stopped worker. -/
theorem c6_start_idempotent_witness :
    JobWorker.start (JobWorker.start demoWorker) = JobWorker.start demoWorker ∧
    JobWorker.start demoWorker =
      { demoWorker with running := true, tasks := demoWorker.tasks + 1 } :=
  ⟨(c6_start_idempotent demoWorker).1,
   (c6_start_idempotent demoWorker).2.2 rfl⟩

/-- The observable steps of one iteration of `JobWorker._run_loop`, in
program order.  `checkSchedules` / `checkStaleAnchors` carry the jobs the
executor scan created (empty on a store failure, which the executor
absorbs). -/
inductive LoopEvent (J : Type) where
  | checkSchedules (created : List J)
  | setLastScheduleCheck (t : Int)
  | checkStaleAnchors (created : List J)
  | setLastStaleCheck (t : Int)
  | processJobs
deriving DecidableEq, Repr

/-- Embedding of one iteration of `JobWorker._run_loop` at time `now`
(`time.time()`): if `now - last_schedule_check >= schedule_check_interval`,
call `_check_schedules()` (which runs the executor scan and swallows any
exception) and then set `last_schedule_check = now`; analogously for the
stale-anchor check; finally process pending jobs (elaborated separately by
`JobWorker.processJobsBatch`).  Returns the new state and the ordered
event trace of the iteration. -/
def JobWorker.runLoopIteration {J : Type} (w : WorkerState) (now : Int)
    (schedRpc staleRpc : Except String (Option (List J))) :
    WorkerState × List (LoopEvent J) :=
  let w1 := if w.scheduleCheckInterval ≤ now - w.lastScheduleCheck then
      { w with lastScheduleCheck := now } else w
  let ev1 : List (LoopEvent J) :=
    if w.scheduleCheckInterval ≤ now - w.lastScheduleCheck then
      [LoopEvent.checkSchedules (SupabaseJobExecutor.check_schedules schedRpc),
       LoopEvent.setLastScheduleCheck now]
    else []
  let w2 := if w1.staleCheckInterval ≤ now - w1.lastStaleCheck then
      { w1 with lastStaleCheck := now } else w1
  let ev2 : List (LoopEvent J) :=
    if w1.staleCheckInterval ≤ now - w1.lastStaleCheck then
      [LoopEvent.checkStaleAnchors (SupabaseJobExecutor.check_stale_anchors staleRpc),
       LoopEvent.setLastStaleCheck now]
    else []
  (w2, ev1 ++ ev2 ++ [LoopEvent.processJobs])

/-- Whether an event belongs to the schedule check. -/
def isSchedEvent {J : Type} : LoopEvent J → Bool
  | LoopEvent.checkSchedules _ => true
  | LoopEvent.setLastScheduleCheck _ => true
  | _ => false

/-- Whether an event belongs to the stale-anchor check. -/
def isStaleEvent {J : Type} : LoopEvent J → Bool
  | LoopEvent.checkStaleAnchors _ => true
  | LoopEvent.setLastStaleCheck _ => true
  | _ => false

/-- Claim C7: on every loop iteration, `check_schedules()` is invoked if
and only if `now - last_schedule_check >= schedule_check_interval`, and
`last_schedule_check` is updated to `now` only after the `check_schedules`
call returns — the schedule events of the iteration's trace are exactly
the invocation followed by the update — including when the executor call
fails (any `schedRpc`, exceptions included); and analogously for
`check_stale_anchors` and `last_stale_check` with
`stale_check_interval`. -/
theorem c7_periodic_check_timing {J : Type} (w : WorkerState) (now : Int)
    (schedRpc staleRpc : Except String (Option (List J))) :
    ((JobWorker.runLoopIteration w now schedRpc staleRpc).2.filter isSchedEvent =
      if w.scheduleCheckInterval ≤ now - w.lastScheduleCheck then
        [LoopEvent.checkSchedules (SupabaseJobExecutor.check_schedules schedRpc),
         LoopEvent.setLastScheduleCheck now]
      else []) ∧
    ((JobWorker.runLoopIteration w now schedRpc staleRpc).1.lastScheduleCheck =
      if w.scheduleCheckInterval ≤ now - w.lastScheduleCheck then now
      else w.lastScheduleCheck) ∧
    ((JobWorker.runLoopIteration w now schedRpc staleRpc).2.filter isStaleEvent =
      if w.staleCheckInterval ≤ now - w.lastStaleCheck then
        [LoopEvent.checkStaleAnchors (SupabaseJobExecutor.check_stale_anchors staleRpc),
         LoopEvent.setLastStaleCheck now]
      else []) ∧
    ((JobWorker.runLoopIteration w now schedRpc staleRpc).1.lastStaleCheck =
      if w.staleCheckInterval ≤ now - w.lastStaleCheck then now
      else w.lastStaleCheck) := by
  unfold JobWorker.runLoopIteration
  by_cases h1 : w.scheduleCheckInterval ≤ now - w.lastScheduleCheck <;>
    by_cases h2 : w.staleCheckInterval ≤ now - w.lastStaleCheck <;>
      simp [h1, h2, isSchedEvent, isStaleEvent, List.filter_append, List.filter]

/-! ## Worker status (JobWorker.get_status) and the process-wide
supervisor (module-level functions of job_worker.py) -/

/-- Zero-pad a nonnegative number to two digits. -/
def pad2 (n : Int) : String :=
  if 0 ≤ n ∧ n < 10 then "0" ++ toString n else toString n

/-- Zero-pad a nonnegative number to four digits. -/
def pad4 (n : Int) : String :=
  if 0 ≤ n ∧ n < 10 then "000" ++ toString n
  else if 0 ≤ n ∧ n < 100 then "00" ++ toString n
  else if 0 ≤ n ∧ n < 1000 then "0" ++ toString n
  else toString n

/-- Proleptic-Gregorian civil date (year, month, day) of a day count from
the epoch 1970-01-01, using floor division (`Int.ediv` for the positive
divisors involved). -/
def civilFromDays (z0 : Int) : Int × Int × Int :=
  let z := z0 + 719468
  let era := z.ediv 146097
  let doe := z - era * 146097
  let yoe := (doe - doe.ediv 1460 + doe.ediv 36524 - doe.ediv 146096).ediv 365
  let y := yoe + era * 400
  let doy := doe - (365 * yoe + yoe.ediv 4 - yoe.ediv 100)
  let mp := (5 * doy + 2).ediv 153
  let d := doy - (153 * mp + 2).ediv 5 + 1
  let m := if mp < 10 then mp + 3 else mp - 9
  (if m ≤ 2 then y + 1 else y, m, d)

/-- Embedding of `datetime.fromtimestamp(t).isoformat()` for a whole-second
timestamp `t` (time zone taken as UTC): the ISO-8601 string
`YYYY-MM-DDTHH:MM:SS`. -/
def fromtimestampIsoformat (t : Int) : String :=
  let days := t.ediv 86400
  let secs := t.emod 86400
  let ymd := civilFromDays days
  pad4 ymd.1 ++ "-" ++ pad2 ymd.2.1 ++ "-" ++ pad2 ymd.2.2 ++ "T" ++
    pad2 (secs.ediv 3600) ++ ":" ++ pad2 ((secs.emod 3600).ediv 60) ++ ":" ++
    pad2 (secs.emod 60)

/-- The `config` sub-dict of the worker status. -/
structure WorkerConfigDict where
  job_poll_interval : Int
  schedule_check_interval : Int
  stale_check_interval : Int
  job_batch_size : Int
deriving DecidableEq, Repr

/-- The dict returned by `JobWorker.get_status`. -/
structure WorkerStatus where
  running : Bool
  worker_id : String
  last_schedule_check : Option String
  last_stale_check : Option String
  job_types : List String
  config : WorkerConfigDict
deriving DecidableEq, Repr

/-- Embedding of `JobWorker.get_status`: a snapshot dict; each last-check
field is `datetime.fromtimestamp(x).isoformat() if x else None`, so the
falsy sentinel 0 yields `None`. -/
def JobWorker.get_status (w : WorkerState) : WorkerStatus :=
  { running := w.running
    worker_id := w.workerId
    last_schedule_check :=
      if w.lastScheduleCheck = 0 then none
      else some (fromtimestampIsoformat w.lastScheduleCheck)
    last_stale_check :=
      if w.lastStaleCheck = 0 then none
      else some (fromtimestampIsoformat w.lastStaleCheck)
    job_types := w.jobTypes
    config :=
      { job_poll_interval := w.jobPollInterval
        schedule_check_interval := w.scheduleCheckInterval
        stale_check_interval := w.staleCheckInterval
        job_batch_size := w.jobBatchSize } }

/-- The value returned by the supervisor's status query: either the
not-initialized error dict or the current worker's status dict. -/
inductive StatusResult where
  | errorStatus (running : Bool) (error : String)
  | workerStatus (s : WorkerStatus)
deriving DecidableEq, Repr

/-- Embedding of the module-level `get_job_worker_status`: when the global
`_job_worker` is `None` it returns
`{'running': False, 'error': 'Worker not initialized'}`, otherwise the
worker's `get_status()`. -/
def get_job_worker_status (jobWorker : Option WorkerState) : StatusResult :=
  match jobWorker with
  | none => StatusResult.errorStatus false "Worker not initialized"
  | some w => StatusResult.workerStatus (JobWorker.get_status w)

/-- Embedding of the module-level `stop_job_worker`: stops the worker if
one exists and clears the global reference, leaving `_job_worker = None`
in every case. -/
def stop_job_worker (jobWorker : Option WorkerState) : Option WorkerState :=
  match jobWorker with
  | none => none
  | some w =>
    let _ := JobWorker.stop w
    none

/-- Counterexample to C8 as stated: before any worker is started, the
supervisor's status is not `{running: false, error: "not initialized"}` —
the error string the code returns is `"Worker not initialized"`. -/
theorem c8_counterexample :
    get_job_worker_status none ≠
      StatusResult.errorStatus false "not initialized" := by
  decide

/-- Claim C8 (amended: the error string is `"Worker not initialized"`, not
`"not initialized"`): if the supervisor's status is queried before any
worker has been started (or after `stop_job_worker` cleared it), it
returns exactly `{running: false, error: "Worker not initialized"}`;
otherwise it returns exactly the current worker's `get_status()`. -/
theorem c8_status_not_initialized (g : Option WorkerState) :
    get_job_worker_status none =
      StatusResult.errorStatus false "Worker not initialized" ∧
    get_job_worker_status (stop_job_worker g) =
      StatusResult.errorStatus false "Worker not initialized" ∧
    (∀ w : WorkerState,
      get_job_worker_status (some w) =
        StatusResult.workerStatus (JobWorker.get_status w)) := by
  refine ⟨rfl, ?_, fun w => rfl⟩
  cases g <;> rfl

/-- Claim C9 (implicit): a worker on which the schedule (resp. stale)
check has never run reports `last_schedule_check` (resp.
`last_stale_check`) as `None` rather than a zero-epoch timestamp — the
internal sentinel 0 is mapped to `None` — and once a check has run at a
(nonzero) time `t`, the field is the ISO-8601 timestamp of that check. -/
theorem c9_sentinel_maps_to_none (workerId : String)
    (pollI schedI staleI batchN : Int) (w : WorkerState) (t : Int) :
    (JobWorker.get_status
        (JobWorker.init workerId pollI schedI staleI batchN)).last_schedule_check =
      none ∧
    (JobWorker.get_status
        (JobWorker.init workerId pollI schedI staleI batchN)).last_stale_check =
      none ∧
    (w.lastScheduleCheck = 0 →
      (JobWorker.get_status w).last_schedule_check = none) ∧
    (w.lastStaleCheck = 0 →
      (JobWorker.get_status w).last_stale_check = none) ∧
    (t ≠ 0 → w.lastScheduleCheck = t →
      (JobWorker.get_status w).last_schedule_check =
        some (fromtimestampIsoformat t)) ∧
    (t ≠ 0 → w.lastStaleCheck = t →
      (JobWorker.get_status w).last_stale_check =
        some (fromtimestampIsoformat t)) := by
  refine ⟨rfl, rfl, fun h => ?_, fun h => ?_, fun ht h => ?_, fun ht h => ?_⟩
  · simp [JobWorker.get_status, h]
  · simp [JobWorker.get_status, h]
  · simp [JobWorker.get_status, h, ht]
  · simp [JobWorker.get_status, h, ht]

/-- A worker whose schedule check last ran at a concrete positive time and
whose stale check never ran. -/
def demoWorkerRan : WorkerState :=
  { demoWorker with lastScheduleCheck := 1700000000 }

/-- Witness for C9: a worker whose schedule check last ran at a concrete
positive time and whose stale check never ran. -/
theorem c9_sentinel_maps_to_none_witness :
    (JobWorker.get_status (JobWorker.init "worker-1" 30 900 3600 5)).last_schedule_check =
      none ∧
    (JobWorker.get_status demoWorkerRan).last_schedule_check =
      some (fromtimestampIsoformat 1700000000) ∧
    (JobWorker.get_status demoWorkerRan).last_stale_check = none :=
  ⟨(c9_sentinel_maps_to_none "worker-1" 30 900 3600 5 demoWorker 1).1,
   (c9_sentinel_maps_to_none "worker-1" 30 900 3600 5
      demoWorkerRan 1700000000).2.2.2.2.1 (by decide) (by decide),
   (c9_sentinel_maps_to_none "worker-1" 30 900 3600 5
      demoWorkerRan 1700000000).2.2.2.1 (by decide)⟩

end Clearinghouse
